import Mathlib

/-!
Shallow embedding of the TrustLink satellite relay nodes:
`satellite_node_sp.py` (short-path variant, namespace `SP`),
`satellite_node_parallel.py` (parallel variant, namespace `Par`),
`satellite_node_channelchar.py` (channel-characteristics variant, namespace `CC`),
`satellite_node_scalable.py` (scalable variant, namespace `Scal`).

Python dicts keyed by strings are modelled as association lists,
wall-clock time as exact rationals, and the transport layer as an
explicit function from send-attempt index to send success.
-/

namespace TrustLink

/-- Lookup in an association list, modelling `d[k]` and `k in d` on a
Python dict (keys are unique in every dict the relay code builds). -/
def alookup {α : Type} : List (String × α) → String → Option α
  | [], _ => none
  | (k, v) :: rest, key => if k = key then some v else alookup rest key

/-- Update-or-insert, modelling `d[k] = v` on a Python dict. -/
def aset {α : Type} : List (String × α) → String → α → List (String × α)
  | [], key, v => [(key, v)]
  | (k, w) :: rest, key, v =>
      if k = key then (key, v) :: rest else (k, w) :: aset rest key v

/-- Deletion, modelling `del d[k]` on a Python dict. -/
def aerase {α : Type} : List (String × α) → String → List (String × α)
  | [], _ => []
  | (k, w) :: rest, key => if k = key then rest else (k, w) :: aerase rest key

theorem alookup_aset_self {α : Type} (l : List (String × α)) (k : String) (v : α) :
    alookup (aset l k v) k = some v := by
  induction l with
  | nil => simp [aset, alookup]
  | cons hd tl ih =>
      by_cases h : hd.1 = k
      · simp [aset, h, alookup]
      · simp [aset, h, alookup, ih]

/-- A fully decoded wire envelope.  The `timestamp` field is informational
only and is read by no relay code path, so it is omitted.  `payload` is the
JSON object payload restricted to the integer-valued keys the relay reads
(only `payload["port"]` is ever accessed). -/
structure Envelope where
  type : String
  source : String
  destination : String
  payload : List (String × Nat)
  id : String
  priority : Option Int
deriving DecidableEq

/-- A decoded JSON object whose fields may be missing: a `none` field
models the `KeyError` raised when the field is accessed (for `payload`,
`none` also covers a JSON `null` payload, on which `"port" in payload`
raises `TypeError`). -/
structure RawMsg where
  type : Option String
  source : Option String
  destination : Option String
  payload : Option (List (String × Nat))
  id : Option String
deriving DecidableEq

/-- Pop the smallest-priority element, modelling `queue.PriorityQueue.get`
on `(priority, message)` tuples (lower integer first).  Among equal
priorities the first is taken; in the source a tie between two queued
items would compare the message dicts and raise, but the queue never
holds two items at once in any reachable state. -/
def popMin : List (Int × Envelope) → Option ((Int × Envelope) × List (Int × Envelope))
  | [] => none
  | x :: xs =>
      match popMin xs with
      | none => some (x, [])
      | some (m, rest) => if x.1 ≤ m.1 then some (x, xs) else some (m, x :: rest)

/-- One `while not message_queue.empty(): _, msg = message_queue.get(); ...`
loop.  Fuel equal to the queue length is enough because each `get` removes
exactly one item and the loop body never puts. -/
def drainAux {σ : Type} (process : σ → Envelope → σ) :
    Nat → List (Int × Envelope) → σ → σ
  | 0, _, s => s
  | fuel + 1, q, s =>
      match popMin q with
      | none => s
      | some (item, rest) => drainAux process fuel rest (process s item.2)

def drainPQ {σ : Type} (process : σ → Envelope → σ)
    (q : List (Int × Envelope)) (s : σ) : σ :=
  drainAux process q.length q s

/-- Result of one bounded-retry send loop
(`for attempt in range(MAX_RETRIES): try: ...sendto...; forwarded += 1;
return except: time.sleep(0.5)` followed by one dropped-counter increment
when the loop exhausts).  `link n` tells whether the `sendto` of attempt
`n` succeeds; `backoffs` records every `time.sleep(0.5)` executed in the
`except` clause, in seconds. -/
structure RetryResult where
  attempts : Nat
  forwarded : Nat
  dropped : Nat
  sent : Bool
  backoffs : List ℚ
deriving DecidableEq

def retryFrom (link : Nat → Bool) : Nat → Nat → RetryResult
  | _, 0 => { attempts := 0, forwarded := 0, dropped := 1, sent := false, backoffs := [] }
  | attempt, remaining + 1 =>
      if link attempt then
        { attempts := 1, forwarded := 1, dropped := 0, sent := true, backoffs := [] }
      else
        let r := retryFrom link (attempt + 1) remaining
        { attempts := r.attempts + 1, forwarded := r.forwarded, dropped := r.dropped,
          sent := r.sent, backoffs := (1 / 2 : ℚ) :: r.backoffs }

theorem retryFrom_attempts_le (link : Nat → Bool) :
    ∀ fuel a, (retryFrom link a fuel).attempts ≤ fuel := by
  intro fuel
  induction fuel with
  | zero => intro a; simp [retryFrom]
  | succ n ih =>
      intro a
      by_cases h : link a
      · simp [retryFrom, h]
      · simp only [retryFrom, h, if_false, Bool.false_eq_true]
        exact Nat.succ_le_succ (ih (a + 1))

theorem retryFrom_allFail (link : Nat → Bool) (h : ∀ n, link n = false) :
    ∀ fuel a, retryFrom link a fuel =
      { attempts := fuel, forwarded := 0, dropped := 1, sent := false,
        backoffs := List.replicate fuel (1 / 2 : ℚ) } := by
  intro fuel
  induction fuel with
  | zero => intro a; simp [retryFrom]
  | succ n ih => intro a; simp [retryFrom, h, ih, List.replicate]

theorem retryFrom_backoffs_half (link : Nat → Bool) :
    ∀ fuel a q, q ∈ (retryFrom link a fuel).backoffs → q = (1 / 2 : ℚ) := by
  intro fuel
  induction fuel with
  | zero => intro a q hq; simp [retryFrom] at hq
  | succ n ih =>
      intro a q hq
      by_cases h : link a
      · simp [retryFrom, h] at hq
      · simp only [retryFrom, h, if_false, Bool.false_eq_true, List.mem_cons] at hq
        rcases hq with hq | hq
        · exact hq
        · exact ih (a + 1) q hq

/-- Lookup in a `NEIGHBORS` list, modelling
`next((n for n in neighbors if n["id"] == next_hop), None)`. -/
def findNbr : List (String × String × Nat) → String → Option (String × Nat)
  | [], _ => none
  | (i, ip, p) :: rest, nh => if i = nh then some (ip, p) else findNbr rest nh

namespace SP

def COMMAND_STATION_IP : String := "10.35.70.19"

def COMMAND_STATION_PORT : Nat := 33500

def MAX_RETRIES : Nat := 3

/-- One entry of the routing table of `satellite_node_sp.py`: a dict that
may carry a `next_hop` key and, for direct entries, `ip` and `port` keys. -/
structure RouteEntry where
  next_hop : Option String
  ip : Option String
  port : Option Nat
deriving DecidableEq

/-- Static routing table fallback (`ROUTING_TABLE`, lines 43-51). -/
def ROUTING_TABLE : List (String × RouteEntry) :=
  [ ("command_station",
      { next_hop := some "command_station", ip := some COMMAND_STATION_IP,
        port := some COMMAND_STATION_PORT }),
    ("sat_1", { next_hop := some "sat_2", ip := none, port := none }),
    ("sat_2", { next_hop := some "sat_3", ip := none, port := none }),
    ("sat_3", { next_hop := some "sat_4", ip := none, port := none }),
    ("sat_4", { next_hop := some "sat_5", ip := none, port := none }),
    ("sat_5", { next_hop := some "command_station", ip := none, port := none }),
    ("satellite", { next_hop := some "command_station", ip := none, port := none }) ]

/-- `is_duplicate` of `satellite_node_sp.py` (lines 57-68).  Returns the
verdict, the updated `recent_messages` store, and the increment of the
`duplicate_messages` counter (incremented inside this function in this
variant). -/
def is_duplicate (now : ℚ) (recent : List (String × ℚ)) (mid : String) :
    Bool × List (String × ℚ) × Nat :=
  match alookup recent mid with
  | some first =>
      if now - first < 10 then (true, recent, 1)
      else (false, aset (aerase recent mid) mid now, 0)
  | none => (false, aset recent mid now, 0)

/-- `get_next_hop` (lines 129-142).  The source returns the routing-table
entry itself, but only ever an entry that carries both `ip` and `port`;
the model returns that `(ip, port)` endpoint directly (`None` becomes
`none`).  The `if static_next_hop` truthiness test is the nonempty-string
test. -/
def get_next_hop (table : List (String × RouteEntry)) (destination : String) :
    Option (String × Nat) :=
  match alookup table destination with
  | none => none
  | some entry =>
      match entry.ip, entry.port with
      | some ip, some p => some (ip, p)
      | _, _ =>
          match entry.next_hop with
          | some nh =>
              if nh ≠ "" then
                match alookup table nh with
                | some e2 =>
                    match e2.ip, e2.port with
                    | some ip, some p => some (ip, p)
                    | _, _ => none
                | none => none
              else none
          | none => none

/-- `update_routing_table` (lines 144-153): when the announcement payload
carries a `port` key, overwrite the entry for `source` with a direct
endpoint built from the sender address and the declared port; otherwise do
nothing.  The second component is the `shortest_path_updates` increment. -/
def update_routing_table (table : List (String × RouteEntry)) (source : String)
    (payload : List (String × Nat)) (addrIp : String) :
    List (String × RouteEntry) × Nat :=
  match alookup payload "port" with
  | some p =>
      (aset table source { next_hop := none, ip := some addrIp, port := some p }, 1)
  | none => (table, 0)

/-- The mutable state of one `satellite_node_sp.py` process together with
its observable transmissions: `attempts` counts `sendto` calls made by
`forward_to_neighbor`, `sends` records the successful ones as
`(ip, port)`, `acks` counts ACK envelopes sent, `backoffs` records the
retry sleeps.  The `average_processing_time` metric (wall-clock timing)
is not modelled. -/
structure SPState where
  recent : List (String × ℚ)
  table : List (String × RouteEntry)
  received : Nat
  forwarded : Nat
  dropped : Nat
  acks : Nat
  duplicates : Nat
  spUpdates : Nat
  attempts : Nat
  sends : List (String × Nat)
  backoffs : List ℚ
deriving DecidableEq

/-- Initial process state of `satellite_node_sp.py`: empty dedup store,
static routing table, all counters zero. -/
def sp0 : SPState :=
  { recent := [], table := ROUTING_TABLE, received := 0, forwarded := 0,
    dropped := 0, acks := 0, duplicates := 0, spUpdates := 0, attempts := 0,
    sends := [], backoffs := [] }

/-- The retry loop of `forward_to_neighbor` (lines 166-183) in isolation. -/
def forward_to_neighbor_retry (link : Nat → Bool) : RetryResult :=
  retryFrom link 0 MAX_RETRIES

/-- `forward_to_neighbor` (lines 166-183): up to `MAX_RETRIES` `sendto`
attempts; on success increment the forwarded counter and return, on a
transport error sleep 0.5 s and retry; after exhaustion increment the
dropped counter once. -/
def forward_to_neighbor (link : Nat → Bool) (st : SPState) (ip : String)
    (port : Nat) : SPState :=
  let r := forward_to_neighbor_retry link
  { st with attempts := st.attempts + r.attempts,
            forwarded := st.forwarded + r.forwarded,
            dropped := st.dropped + r.dropped,
            sends := st.sends ++ (if r.sent then [(ip, port)] else []),
            backoffs := st.backoffs ++ r.backoffs }

/-- `forward_message` (lines 155-164): resolve the next hop; on success
forward to it, otherwise increment the dropped counter (no send). -/
def forward_message (link : Nat → Bool) (st : SPState) (destination : String) :
    SPState :=
  match get_next_hop st.table destination with
  | some (ip, p) => forward_to_neighbor link st ip p
  | none => { st with dropped := st.dropped + 1 }

/-- `send_ack` (lines 114-120): send one ACK envelope to the sender and
increment the `total_acks_sent` counter. -/
def send_ack (st : SPState) : SPState :=
  { st with acks := st.acks + 1 }

/-- The body of `handle_connection` (lines 185-205) inside its `try`:
an `Except.error` result models an exception reaching the `except` clause,
carrying the state as mutated so far (Python keeps partial mutations).
Field accesses on missing keys raise.  A duplicate returns early,
skipping the `total_packets_received` increment. -/
def handleBody (link : Nat → Bool) (now : ℚ) (addr : String) (msg : RawMsg)
    (st : SPState) : Except SPState SPState :=
  match msg.id with
  | none => .error st
  | some mid =>
      let d := is_duplicate now st.recent mid
      let st1 := { st with recent := d.2.1, duplicates := st.duplicates + d.2.2 }
      if d.1 then .ok st1
      else
        match msg.type with
        | none => .error st1
        | some t =>
            if t = "data" then
              match msg.destination with
              | none => .error st1
              | some dest =>
                  let st2 := forward_message link st1 dest
                  match msg.source with
                  | none => .error st2
                  | some _ =>
                      let st3 := send_ack st2
                      .ok { st3 with received := st3.received + 1 }
            else if t = "announcement" then
              match msg.source with
              | none => .error st1
              | some src =>
                  match msg.payload with
                  | none => .error st1
                  | some pl =>
                      let u := update_routing_table st1.table src pl addr
                      .ok { st1 with table := u.1,
                                     spUpdates := st1.spUpdates + u.2,
                                     received := st1.received + 1 }
            else .ok { st1 with received := st1.received + 1 }

/-- `handle_connection` (lines 185-205): the whole body runs inside
`try: ... except Exception: logging.error(...)`, so every per-item
failure is absorbed and the state mutated so far is kept. -/
def handle_connection (link : Nat → Bool) (now : ℚ) (addr : String)
    (msg : RawMsg) (st : SPState) : SPState :=
  match handleBody link now addr msg st with
  | .ok s => s
  | .error s => s

/-- `connection_worker` (lines 208-216) processing a finite prefix of the
queue: each `(now, addr, msg)` triple is one `connection_queue.get`.
The second component counts the items the loop processed. -/
def connection_worker (link : Nat → Bool) :
    List (ℚ × String × RawMsg) → SPState → SPState × Nat
  | [], st => (st, 0)
  | (now, addr, msg) :: rest, st =>
      let st1 := handle_connection link now addr msg st
      let r := connection_worker link rest st1
      (r.1, r.2 + 1)

end SP

namespace Par

/-- `ROUTING_TABLE` of `satellite_node_parallel.py` (lines 18-26): every
entry is a bare `next_hop` name. -/
def ROUTING_TABLE : List (String × String) :=
  [ ("command_station", "command_station"),
    ("satellite", "command_station"),
    ("sat_1", "sat_2"),
    ("sat_2", "sat_3"),
    ("sat_3", "sat_4"),
    ("sat_4", "sat_5"),
    ("sat_5", "command_station") ]

/-- `NEIGHBORS` (lines 28-35) as `(id, ip, port)` triples. -/
def NEIGHBORS : List (String × String × Nat) :=
  [ ("command_station", "10.35.70.19", 33500),
    ("sat_1", "127.0.0.1", 33001),
    ("sat_2", "127.0.0.1", 33002),
    ("sat_3", "127.0.0.1", 33003),
    ("sat_4", "127.0.0.1", 33004),
    ("sat_5", "127.0.0.1", 33005) ]

/-- `is_duplicate` of `satellite_node_parallel.py` (lines 42-51): no
metrics in this variant, so only verdict and updated store. -/
def is_duplicate (now : ℚ) (recent : List (String × ℚ)) (mid : String) :
    Bool × List (String × ℚ) :=
  match alookup recent mid with
  | some first =>
      if now - first < 10 then (true, recent)
      else (false, aset (aerase recent mid) mid now)
  | none => (false, aset recent mid now)

/-- State of one `satellite_node_parallel.py` process plus its observable
transmissions.  `popped` records the ids popped from `message_queue` in
processing order, `cmdSends` the ids handed to `forward_to_command_station`,
`nbrSends` the `(id, ip, port)` of `forward_to_neighbor` calls, `acks` the
ACK envelopes sent by `respond_to_vehicle`. -/
structure ParState where
  recent : List (String × ℚ)
  pqueue : List (Int × Envelope)
  popped : List String
  cmdSends : List String
  nbrSends : List (String × String × Nat)
  acks : Nat
deriving DecidableEq

/-- Initial process state of `satellite_node_parallel.py`. -/
def pst0 : ParState :=
  { recent := [], pqueue := [], popped := [], cmdSends := [], nbrSends := [],
    acks := 0 }

/-- The body of the drain loop of `route_data` (lines 110-129) for one
popped message: dedup check, then table lookup; `command_station` next hop
goes to `forward_to_command_station`, otherwise the neighbor list is
searched; a missing table entry raises `KeyError` and a missing neighbor
raises `ValueError`, both caught by the surrounding `except`. -/
def processItem (now : ℚ) (st : ParState) (msg : Envelope) : ParState :=
  let st := { st with popped := st.popped ++ [msg.id] }
  let d := is_duplicate now st.recent msg.id
  let st := { st with recent := d.2 }
  if d.1 then st
  else
    match alookup ROUTING_TABLE msg.destination with
    | some nh =>
        if nh = "command_station" then { st with cmdSends := st.cmdSends ++ [msg.id] }
        else
          match findNbr NEIGHBORS nh with
          | some (ip, p) => { st with nbrSends := st.nbrSends ++ [(msg.id, ip, p)] }
          | none => st
    | none => st

/-- `route_data` (lines 106-129): put `(priority, message)` on the shared
priority queue — default priority 1 when the field is absent — then drain
the queue to empty, processing each popped item. -/
def route_data (now : ℚ) (st : ParState) (msg : Envelope) : ParState :=
  let p := msg.priority.getD 1
  drainPQ (processItem now) (st.pqueue ++ [(p, msg)]) { st with pqueue := [] }

/-- `handle_connection` (lines 145-152): only `data` envelopes are acted
on — `route_data` followed unconditionally by `respond_to_vehicle`
(one ACK).  Every other type falls through with no action. -/
def handle_connection (now : ℚ) (addr : String) (msg : Envelope)
    (st : ParState) : ParState :=
  if msg.type = "data" then
    let st1 := route_data now st msg
    { st1 with acks := st1.acks + 1 }
  else st

/-- `connection_worker` (lines 154-162) over a finite prefix of the
connection queue; the second component counts processed items. -/
def connection_worker :
    List (ℚ × String × Envelope) → ParState → ParState × Nat
  | [], st => (st, 0)
  | (now, addr, msg) :: rest, st =>
      let st1 := handle_connection now addr msg st
      let r := connection_worker rest st1
      (r.1, r.2 + 1)

/-- The ids of the `data`-typed items of a worker input, in arrival
order (only these reach `route_data`). -/
def dataIds : List (ℚ × String × Envelope) → List String
  | [] => []
  | (_, _, m) :: rest => (if m.type = "data" then [m.id] else []) ++ dataIds rest

end Par

namespace CC

/-- `ROUTING_TABLE` of `satellite_node_channelchar.py` (lines 31-39). -/
def ROUTING_TABLE : List (String × String) :=
  [ ("command_station", "command_station"),
    ("sat_1", "sat_2"),
    ("sat_2", "sat_3"),
    ("sat_3", "sat_4"),
    ("sat_4", "sat_5"),
    ("sat_5", "command_station"),
    ("satellite", "command_station") ]

/-- `NEIGHBORS` (lines 41-48). -/
def NEIGHBORS : List (String × String × Nat) :=
  [ ("command_station", "10.35.70.19", 33500),
    ("sat_1", "127.0.0.1", 33001),
    ("sat_2", "127.0.0.1", 33002),
    ("sat_3", "127.0.0.1", 33003),
    ("sat_4", "127.0.0.1", 33004),
    ("sat_5", "127.0.0.1", 33005) ]

/-- `is_duplicate` of `satellite_node_channelchar.py` (lines 55-64),
identical to the parallel variant. -/
def is_duplicate (now : ℚ) (recent : List (String × ℚ)) (mid : String) :
    Bool × List (String × ℚ) :=
  match alookup recent mid with
  | some first =>
      if now - first < 10 then (true, recent)
      else (false, aset (aerase recent mid) mid now)
  | none => (false, aset recent mid now)

/-- State of one `satellite_node_channelchar.py` process.  `lossIdx`
indexes the Bernoulli packet-loss stream consumed by
`simulate_packet_loss` inside `forward_to_neighbor`. -/
structure CCState where
  recent : List (String × ℚ)
  pqueue : List (Int × Envelope)
  popped : List String
  cmdSends : List String
  nbrSends : List (String × String × Nat)
  forwarded : Nat
  dropped : Nat
  acks : Nat
  lossIdx : Nat
deriving DecidableEq

/-- Initial process state of `satellite_node_channelchar.py`. -/
def cst0 : CCState :=
  { recent := [], pqueue := [], popped := [], cmdSends := [], nbrSends := [],
    forwarded := 0, dropped := 0, acks := 0, lossIdx := 0 }

/-- The drain-loop body of `route_data` (lines 143-169) for one popped
message.  A destination absent from the table falls open to
`forward_to_command_station` (lines 165-167); `forward_to_command_station`
(lines 109-121) performs a single send with no loss check and increments
the forwarded counter; `forward_to_neighbor` (lines 123-141) consults
`simulate_packet_loss` once — drop increments the dropped counter,
otherwise the send succeeds and the forwarded counter is incremented. -/
def processItem (now : ℚ) (loss : Nat → Bool) (st : CCState) (msg : Envelope) :
    CCState :=
  let st := { st with popped := st.popped ++ [msg.id] }
  let d := is_duplicate now st.recent msg.id
  let st := { st with recent := d.2 }
  if d.1 then st
  else
    match alookup ROUTING_TABLE msg.destination with
    | some nh =>
        if nh = "command_station" then
          { st with cmdSends := st.cmdSends ++ [msg.id],
                    forwarded := st.forwarded + 1 }
        else
          match findNbr NEIGHBORS nh with
          | some (ip, p) =>
              if loss st.lossIdx then
                { st with dropped := st.dropped + 1, lossIdx := st.lossIdx + 1 }
              else
                { st with nbrSends := st.nbrSends ++ [(msg.id, ip, p)],
                          forwarded := st.forwarded + 1,
                          lossIdx := st.lossIdx + 1 }
          | none => st
    | none =>
        { st with cmdSends := st.cmdSends ++ [msg.id],
                  forwarded := st.forwarded + 1 }

/-- `route_data` (lines 143-169): enqueue `(priority, message)` with
default priority 1, then drain the priority queue. -/
def route_data (now : ℚ) (loss : Nat → Bool) (st : CCState) (msg : Envelope) :
    CCState :=
  let p := msg.priority.getD 1
  drainPQ (processItem now loss) (st.pqueue ++ [(p, msg)]) { st with pqueue := [] }

/-- `handle_connection` (lines 186-194): `data` envelopes go through
`route_data` and are then unconditionally acknowledged; every other type
(including `announcement`) is ignored. -/
def handle_connection (now : ℚ) (loss : Nat → Bool) (addr : String)
    (msg : Envelope) (st : CCState) : CCState :=
  if msg.type = "data" then
    let st1 := route_data now loss st msg
    { st1 with acks := st1.acks + 1 }
  else st

end CC

namespace Scal

def MAX_RETRIES : Nat := 3

/-- `is_duplicate` of `satellite_node_scalable.py` (lines 68-77),
identical to the parallel variant. -/
def is_duplicate (now : ℚ) (recent : List (String × ℚ)) (mid : String) :
    Bool × List (String × ℚ) :=
  match alookup recent mid with
  | some first =>
      if now - first < 10 then (true, recent)
      else (false, aset (aerase recent mid) mid now)
  | none => (false, aset recent mid now)

/-- The retry loop of `forward_to_command_station` of
`satellite_node_scalable.py` (lines 129-145): up to `MAX_RETRIES`
attempts, a constant `time.sleep(0.5)` in the `except` clause, one
dropped-counter increment on exhaustion. -/
def forward_to_command_station (link : Nat → Bool) : RetryResult :=
  retryFrom link 0 MAX_RETRIES

end Scal

/-- Draining a one-element priority queue processes exactly that element. -/
theorem drainPQ_single {σ : Type} (f : σ → Envelope → σ) (p : Int)
    (m : Envelope) (s : σ) : drainPQ f [(p, m)] s = f s m := rfl

/-- Claim C4: `is_duplicate(id)` records `(id, now)` and returns false when
`id` is absent; returns true without altering the store when `id` is
present and less than 10 seconds old; replaces the record with `(id, now)`
and returns false when the record is at least 10 seconds old.  The
scalable variant's `is_duplicate` coincides with the parallel variant's. -/
theorem c4_is_duplicate_contract :
    ∀ (now : ℚ) (store : List (String × ℚ)) (mid : String),
      (alookup store mid = none →
        (Par.is_duplicate now store mid).1 = false ∧
        alookup (Par.is_duplicate now store mid).2 mid = some now) ∧
      (∀ first, alookup store mid = some first → now - first < 10 →
        Par.is_duplicate now store mid = (true, store)) ∧
      (∀ first, alookup store mid = some first → 10 ≤ now - first →
        (Par.is_duplicate now store mid).1 = false ∧
        alookup (Par.is_duplicate now store mid).2 mid = some now) ∧
      Scal.is_duplicate now store mid = Par.is_duplicate now store mid := by
  intro now store mid
  refine ⟨?_, ?_, ?_, rfl⟩
  · intro h
    simp [Par.is_duplicate, h, alookup_aset_self]
  · intro first h hlt
    simp [Par.is_duplicate, h, hlt]
  · intro first h hge
    have hnlt : ¬ now - first < 10 := not_lt.mpr hge
    simp [Par.is_duplicate, h, hnlt, alookup_aset_self]

/-- Witness for C4: a fresh id is recorded; an id seen 9 seconds earlier is
suppressed; an id seen 11 seconds earlier (window 10 s) is treated as
novel and re-recorded at the current time. -/
theorem c4_witness :
    ((Par.is_duplicate 5 [] "m").1 = false ∧
      alookup (Par.is_duplicate 5 [] "m").2 "m" = some 5) ∧
    Par.is_duplicate 9 [("m", 0)] "m" = (true, [("m", 0)]) ∧
    ((Par.is_duplicate 11 [("m", 0)] "m").1 = false ∧
      alookup (Par.is_duplicate 11 [("m", 0)] "m").2 "m" = some 11) :=
  ⟨(c4_is_duplicate_contract 5 [] "m").1 rfl,
   (c4_is_duplicate_contract 9 [("m", 0)] "m").2.1 0 (by decide) (by norm_num),
   (c4_is_duplicate_contract 11 [("m", 0)] "m").2.2.1 0 (by decide) (by norm_num)⟩

/-- Claim C6: processing an announcement from source `s` whose payload
carries a port `p`, arriving from address `a`, upserts a direct endpoint
for `s`, and `get_next_hop` subsequently resolves `s` to `(a, p)` —
last-writer-wins over any prior table contents. -/
theorem c6_announcement_learning :
    ∀ (table : List (String × SP.RouteEntry)) (source : String)
      (payload : List (String × Nat)) (addrIp : String) (p : Nat),
      alookup payload "port" = some p →
      SP.get_next_hop (SP.update_routing_table table source payload addrIp).1
        source = some (addrIp, p) := by
  intro table source payload addrIp p h
  simp [SP.update_routing_table, h, SP.get_next_hop, alookup_aset_self]

/-- Witness for C6: after an announcement from `sat_9` with payload
`{port: 44000}` arriving from `10.0.0.5`, resolution of `sat_9` yields
`(10.0.0.5, 44000)`. -/
theorem c6_witness :
    SP.get_next_hop
      (SP.update_routing_table SP.ROUTING_TABLE "sat_9" [("port", 44000)]
        "10.0.0.5").1 "sat_9" = some ("10.0.0.5", 44000) :=
  c6_announcement_learning SP.ROUTING_TABLE "sat_9" [("port", 44000)]
    "10.0.0.5" 44000 (by decide)

/-- Claim C10: an announcement whose payload has no `port` key leaves the
routing table completely unchanged, both at the `update_routing_table`
level and through the whole `handle_connection` pipeline. -/
theorem c10_announcement_without_port :
    (∀ (table : List (String × SP.RouteEntry)) (source : String)
       (payload : List (String × Nat)) (addrIp : String),
       alookup payload "port" = none →
       (SP.update_routing_table table source payload addrIp).1 = table) ∧
    (∀ (link : Nat → Bool) (now : ℚ) (addr : String) (st : SP.SPState)
       (msg : RawMsg) (pl : List (String × Nat)),
       msg.type = some "announcement" → msg.payload = some pl →
       alookup pl "port" = none →
       (SP.handle_connection link now addr msg st).table = st.table) := by
  constructor
  · intro table source payload addrIp h
    simp [SP.update_routing_table, h]
  · intro link now addr st msg pl htype hpl hport
    cases hid : msg.id with
    | none => simp [SP.handle_connection, SP.handleBody, hid]
    | some mid =>
        by_cases hdup : (SP.is_duplicate now st.recent mid).1 = true
        · simp [SP.handle_connection, SP.handleBody, hid, hdup]
        · cases hsrc : msg.source with
          | none =>
              simp [SP.handle_connection, SP.handleBody, hid, hdup, htype, hsrc]
          | some src =>
              simp [SP.handle_connection, SP.handleBody, hid, hdup, htype, hsrc,
                hpl, SP.update_routing_table, hport]

/-- Witness for C10: a portless announcement from `sat_7` leaves the static
routing table intact through `handle_connection`. -/
theorem c10_witness :
    (SP.handle_connection (fun _ => true) 0 "10.0.0.9"
      ⟨some "announcement", some "sat_7", some "all", some [("foo", 1)],
        some "n1"⟩ SP.sp0).table = SP.sp0.table :=
  c10_announcement_without_port.2 (fun _ => true) 0 "10.0.0.9" SP.sp0
    ⟨some "announcement", some "sat_7", some "all", some [("foo", 1)],
      some "n1"⟩ [("foo", 1)] rfl rfl (by decide)

/-- Claim C2 counterexample: in the short-path variant a `data` envelope
with destination `unknown_xyz` does NOT resolve to the command-station
endpoint — `get_next_hop` returns `None` and `forward_message` increments
the dropped counter and sends nothing, even over a perfect link. -/
theorem c2_counterexample :
    SP.get_next_hop SP.ROUTING_TABLE "unknown_xyz" = none ∧
    SP.get_next_hop SP.ROUTING_TABLE "unknown_xyz" ≠
      some (SP.COMMAND_STATION_IP, SP.COMMAND_STATION_PORT) ∧
    (SP.forward_message (fun _ => true) SP.sp0 "unknown_xyz").sends = [] ∧
    (SP.forward_message (fun _ => true) SP.sp0 "unknown_xyz").attempts = 0 ∧
    (SP.forward_message (fun _ => true) SP.sp0 "unknown_xyz").dropped = 1 := by
  refine ⟨by decide, by decide, by decide, by decide, by decide⟩

/-- Claim C2 amended: in the channel-characteristics variant a destination
entirely absent from the routing table fails open to the command station
(one forward, counted); in the short-path variant an absent destination is
dropped — the dropped counter is incremented and nothing is sent. -/
theorem c2_amended_fail_open :
    (∀ (now : ℚ) (loss : Nat → Bool) (st : CC.CCState) (msg : Envelope),
       st.pqueue = [] →
       alookup CC.ROUTING_TABLE msg.destination = none →
       alookup st.recent msg.id = none →
       (CC.route_data now loss st msg).cmdSends = st.cmdSends ++ [msg.id] ∧
       (CC.route_data now loss st msg).forwarded = st.forwarded + 1 ∧
       (CC.route_data now loss st msg).dropped = st.dropped) ∧
    (∀ (link : Nat → Bool) (st : SP.SPState) (destination : String),
       SP.get_next_hop st.table destination = none →
       SP.forward_message link st destination =
         { st with dropped := st.dropped + 1 }) := by
  constructor
  · intro now loss st msg hq hdest hfresh
    simp only [CC.route_data, hq, List.nil_append, drainPQ_single]
    simp [CC.processItem, CC.is_duplicate, hfresh, hdest]
  · intro link st destination h
    simp [SP.forward_message, h]

/-- Witness for the amended C2: destination `unknown_xyz` on the
channel-characteristics variant goes to the command station; the same
destination on the short-path variant is dropped. -/
theorem c2_witness :
    ((CC.route_data 0 (fun _ => false) CC.cst0
        ⟨"data", "v1", "unknown_xyz", [], "u1", none⟩).cmdSends =
      CC.cst0.cmdSends ++ ["u1"] ∧
      (CC.route_data 0 (fun _ => false) CC.cst0
        ⟨"data", "v1", "unknown_xyz", [], "u1", none⟩).forwarded =
      CC.cst0.forwarded + 1 ∧
      (CC.route_data 0 (fun _ => false) CC.cst0
        ⟨"data", "v1", "unknown_xyz", [], "u1", none⟩).dropped =
      CC.cst0.dropped) ∧
    SP.forward_message (fun _ => true) SP.sp0 "unknown_xyz" =
      { SP.sp0 with dropped := SP.sp0.dropped + 1 } :=
  ⟨c2_amended_fail_open.1 0 (fun _ => false) CC.cst0
      ⟨"data", "v1", "unknown_xyz", [], "u1", none⟩ rfl (by decide) rfl,
   c2_amended_fail_open.2 (fun _ => true) SP.sp0 "unknown_xyz" (by decide)⟩

/-- Claim C7 counterexample: with a transport that always errors, the
short-path retry loop sleeps a constant 0.5 s after every failed attempt;
there is no base for which these waits follow `base * 2 ^ attempt`
(exponential doubling). -/
theorem c7_counterexample :
    (SP.forward_to_neighbor_retry (fun _ => false)).backoffs =
      [(1 / 2 : ℚ), 1 / 2, 1 / 2] ∧
    ¬ ∃ base : ℚ, (SP.forward_to_neighbor_retry (fun _ => false)).backoffs =
        [base * 2 ^ 0, base * 2 ^ 1, base * 2 ^ 2] := by
  have hconc : (SP.forward_to_neighbor_retry (fun _ => false)).backoffs =
      [(1 / 2 : ℚ), 1 / 2, 1 / 2] := by
    simp [SP.forward_to_neighbor_retry, SP.MAX_RETRIES, retryFrom]
  refine ⟨hconc, ?_⟩
  rintro ⟨base, h⟩
  rw [hconc] at h
  simp only [List.cons.injEq, and_true] at h
  obtain ⟨h0, h1, -⟩ := h
  rw [pow_zero, mul_one] at h0
  rw [pow_one] at h1
  linarith

/-- Claim C7 amended: every wait between retry attempts — in the
short-path `forward_to_neighbor` and in the scalable
`forward_to_command_station` — is the constant 0.5 seconds
(`time.sleep(0.5)`), not an exponential backoff. -/
theorem c7_amended_constant_backoff :
    ∀ (link : Nat → Bool),
      (∀ q ∈ (SP.forward_to_neighbor_retry link).backoffs, q = (1 / 2 : ℚ)) ∧
      (∀ q ∈ (Scal.forward_to_command_station link).backoffs, q = (1 / 2 : ℚ)) ∧
      ((∀ n, link n = false) →
        (SP.forward_to_neighbor_retry link).backoffs =
          List.replicate SP.MAX_RETRIES (1 / 2 : ℚ)) := by
  intro link
  refine ⟨fun q hq => retryFrom_backoffs_half link SP.MAX_RETRIES 0 q hq,
          fun q hq => retryFrom_backoffs_half link Scal.MAX_RETRIES 0 q hq, ?_⟩
  intro h
  rw [SP.forward_to_neighbor_retry, retryFrom_allFail link h]

/-- Witness for the amended C7: an always-failing transport yields exactly
`MAX_RETRIES` sleeps of 0.5 s. -/
theorem c7_witness :
    (SP.forward_to_neighbor_retry (fun _ => false)).backoffs =
      List.replicate SP.MAX_RETRIES (1 / 2 : ℚ) :=
  (c7_amended_constant_backoff (fun _ => false)).2.2 (fun _ => rfl)

/-- Claim C9: an envelope whose type is neither `data` nor `announcement`
produces no outbound transmission in any variant: the short-path handler
leaves the ACK counter, the send list and the attempt counter untouched,
and the parallel and channel-characteristics handlers leave the state
entirely unchanged. -/
theorem c9_silent_other_types :
    (∀ (link : Nat → Bool) (now : ℚ) (addr : String) (msg : RawMsg)
       (st : SP.SPState),
       msg.type ≠ some "data" → msg.type ≠ some "announcement" →
       (SP.handle_connection link now addr msg st).acks = st.acks ∧
       (SP.handle_connection link now addr msg st).sends = st.sends ∧
       (SP.handle_connection link now addr msg st).attempts = st.attempts ∧
       (SP.handle_connection link now addr msg st).forwarded = st.forwarded) ∧
    (∀ (now : ℚ) (addr : String) (msg : Envelope) (st : Par.ParState),
       msg.type ≠ "data" → Par.handle_connection now addr msg st = st) ∧
    (∀ (now : ℚ) (loss : Nat → Bool) (addr : String) (msg : Envelope)
       (st : CC.CCState),
       msg.type ≠ "data" → CC.handle_connection now loss addr msg st = st) := by
  refine ⟨?_, ?_, ?_⟩
  · intro link now addr msg st hd ha
    cases hid : msg.id with
    | none => simp [SP.handle_connection, SP.handleBody, hid]
    | some mid =>
        by_cases hdup : (SP.is_duplicate now st.recent mid).1 = true
        · simp [SP.handle_connection, SP.handleBody, hid, hdup]
        · cases htype : msg.type with
          | none => simp [SP.handle_connection, SP.handleBody, hid, hdup, htype]
          | some t =>
              have ht : t ≠ "data" := by
                intro h; exact hd (by rw [htype, h])
              have ht2 : t ≠ "announcement" := by
                intro h; exact ha (by rw [htype, h])
              simp [SP.handle_connection, SP.handleBody, hid, hdup, htype, ht, ht2]
  · intro now addr msg st h
    simp [Par.handle_connection, h]
  · intro now loss addr msg st h
    simp [CC.handle_connection, h]

/-- Witness for C9: a stray `ack` envelope leaves every outbound counter
of the short-path node unchanged and the parallel and
channel-characteristics states untouched. -/
theorem c9_witness :
    ((SP.handle_connection (fun _ => true) 0 "1.2.3.4"
        ⟨some "ack", some "sat_2", some "v1", some [], some "k1"⟩ SP.sp0).acks =
      SP.sp0.acks ∧
      (SP.handle_connection (fun _ => true) 0 "1.2.3.4"
        ⟨some "ack", some "sat_2", some "v1", some [], some "k1"⟩ SP.sp0).sends =
      SP.sp0.sends ∧
      (SP.handle_connection (fun _ => true) 0 "1.2.3.4"
        ⟨some "ack", some "sat_2", some "v1", some [], some "k1"⟩ SP.sp0).attempts =
      SP.sp0.attempts ∧
      (SP.handle_connection (fun _ => true) 0 "1.2.3.4"
        ⟨some "ack", some "sat_2", some "v1", some [], some "k1"⟩ SP.sp0).forwarded =
      SP.sp0.forwarded) ∧
    Par.handle_connection 0 "1.2.3.4"
      ⟨"ack", "sat_2", "v1", [], "k1", none⟩ Par.pst0 = Par.pst0 ∧
    CC.handle_connection 0 (fun _ => false) "1.2.3.4"
      ⟨"ack", "sat_2", "v1", [], "k1", none⟩ CC.cst0 = CC.cst0 :=
  ⟨c9_silent_other_types.1 (fun _ => true) 0 "1.2.3.4"
      ⟨some "ack", some "sat_2", some "v1", some [], some "k1"⟩ SP.sp0
      (by decide) (by decide),
   c9_silent_other_types.2.1 0 "1.2.3.4"
      ⟨"ack", "sat_2", "v1", [], "k1", none⟩ Par.pst0 (by decide),
   c9_silent_other_types.2.2 0 (fun _ => false) "1.2.3.4"
      ⟨"ack", "sat_2", "v1", [], "k1", none⟩ CC.cst0 (by decide)⟩

/-- Claim C8: per-item failure containment.  Every exception escaping the
body of the short-path `handle_connection` is absorbed by its `except`
clause (the state mutated so far is kept, nothing propagates), and the
worker loops — short-path and parallel — process every queued item
regardless of failures in earlier items. -/
theorem c8_failure_containment :
    (∀ (link : Nat → Bool) (now : ℚ) (addr : String) (msg : RawMsg)
       (st s : SP.SPState),
       SP.handleBody link now addr msg st = .error s →
       SP.handle_connection link now addr msg st = s) ∧
    (∀ (link : Nat → Bool) (items : List (ℚ × String × RawMsg))
       (st : SP.SPState),
       (SP.connection_worker link items st).2 = items.length) ∧
    (∀ (items : List (ℚ × String × Envelope)) (st : Par.ParState),
       (Par.connection_worker items st).2 = items.length) := by
  refine ⟨?_, ?_, ?_⟩
  · intro link now addr msg st s h
    simp [SP.handle_connection, h]
  · intro link items
    induction items with
    | nil => intro st; rfl
    | cons x rest ih =>
        intro st
        obtain ⟨n, a, m⟩ := x
        simp [SP.connection_worker, ih]
  · intro items
    induction items with
    | nil => intro st; rfl
    | cons x rest ih =>
        intro st
        obtain ⟨n, a, m⟩ := x
        simp [Par.connection_worker, ih]

/-- Witness for C8: a malformed envelope (missing `id`) raises inside the
handler, is contained (the state is returned unchanged), and a
two-item queue containing it is still fully processed. -/
theorem c8_witness :
    SP.handle_connection (fun _ => true) 0 "10.0.0.1"
      ⟨some "data", some "v1", some "satellite", some [], none⟩ SP.sp0 =
      SP.sp0 ∧
    (SP.connection_worker (fun _ => true)
      [(0, "10.0.0.1", ⟨some "data", some "v1", some "satellite", some [], none⟩),
       (1, "10.0.0.1", ⟨some "data", some "v1", some "satellite", some [], some "w1"⟩)]
      SP.sp0).2 = 2 :=
  ⟨c8_failure_containment.1 (fun _ => true) 0 "10.0.0.1"
      ⟨some "data", some "v1", some "satellite", some [], none⟩ SP.sp0 SP.sp0 rfl,
   c8_failure_containment.2.1 (fun _ => true)
      [(0, "10.0.0.1", ⟨some "data", some "v1", some "satellite", some [], none⟩),
       (1, "10.0.0.1", ⟨some "data", some "v1", some "satellite", some [], some "w1"⟩)]
      SP.sp0⟩

/-- Claim C3 counterexample: a fresh `data` envelope whose every send
attempt fails makes 3 attempts and increments the dropped counter once —
but one ACK is still sent to the original sender, contradicting the
claimed zero ACKs. -/
theorem c3_counterexample :
    (SP.handle_connection (fun _ => false) 0 "10.0.0.1"
        ⟨some "data", some "v1", some "satellite", some [], some "x1"⟩
        SP.sp0).attempts = 3 ∧
    (SP.handle_connection (fun _ => false) 0 "10.0.0.1"
        ⟨some "data", some "v1", some "satellite", some [], some "x1"⟩
        SP.sp0).dropped = 1 ∧
    (SP.handle_connection (fun _ => false) 0 "10.0.0.1"
        ⟨some "data", some "v1", some "satellite", some [], some "x1"⟩
        SP.sp0).acks ≠ 0 ∧
    (SP.handle_connection (fun _ => false) 0 "10.0.0.1"
        ⟨some "data", some "v1", some "satellite", some [], some "x1"⟩
        SP.sp0).acks = 1 := by
  refine ⟨by decide, by decide, by decide, by decide⟩

/-- Claim C3 amended: with a transport that always fails, a single fresh
routable work item makes exactly `MAX_RETRIES` (3) send attempts (and
never more than `MAX_RETRIES` for any transport), the dropped counter is
incremented exactly once at the end, nothing is forwarded — but exactly
one ACK is still sent to the original sender, because
`handle_connection` acknowledges unconditionally after `forward_message`
returns. -/
theorem c3_amended_bounded_retry :
    (∀ (link : Nat → Bool),
       (SP.forward_to_neighbor_retry link).attempts ≤ SP.MAX_RETRIES) ∧
    (∀ (link : Nat → Bool) (now : ℚ) (addr : String) (st : SP.SPState)
       (msg : RawMsg) (mid dest src : String) (ep : String × Nat),
       (∀ n, link n = false) →
       msg.id = some mid → alookup st.recent mid = none →
       msg.type = some "data" → msg.destination = some dest →
       msg.source = some src →
       SP.get_next_hop st.table dest = some ep →
       (SP.handle_connection link now addr msg st).attempts =
         st.attempts + SP.MAX_RETRIES ∧
       (SP.handle_connection link now addr msg st).dropped = st.dropped + 1 ∧
       (SP.handle_connection link now addr msg st).forwarded = st.forwarded ∧
       (SP.handle_connection link now addr msg st).sends = st.sends ∧
       (SP.handle_connection link now addr msg st).acks = st.acks + 1) := by
  constructor
  · intro link
    exact retryFrom_attempts_le link SP.MAX_RETRIES 0
  · intro link now addr st msg mid dest src ep hfail hid hfresh htype hdest hsrc hroute
    obtain ⟨ip, p⟩ := ep
    simp [SP.handle_connection, SP.handleBody, hid, htype, hdest, hsrc,
      SP.is_duplicate, hfresh, SP.forward_message, hroute,
      SP.forward_to_neighbor, SP.forward_to_neighbor_retry,
      retryFrom_allFail link hfail, SP.send_ack, SP.MAX_RETRIES]

/-- Witness for the amended C3: the always-failing scenario instantiated
at a concrete fresh envelope routed through the static table. -/
theorem c3_witness :
    (SP.handle_connection (fun _ => false) 2 "10.0.0.2"
        ⟨some "data", some "v2", some "command_station", some [], some "y1"⟩
        SP.sp0).attempts = SP.sp0.attempts + SP.MAX_RETRIES ∧
    (SP.handle_connection (fun _ => false) 2 "10.0.0.2"
        ⟨some "data", some "v2", some "command_station", some [], some "y1"⟩
        SP.sp0).dropped = SP.sp0.dropped + 1 ∧
    (SP.handle_connection (fun _ => false) 2 "10.0.0.2"
        ⟨some "data", some "v2", some "command_station", some [], some "y1"⟩
        SP.sp0).forwarded = SP.sp0.forwarded ∧
    (SP.handle_connection (fun _ => false) 2 "10.0.0.2"
        ⟨some "data", some "v2", some "command_station", some [], some "y1"⟩
        SP.sp0).sends = SP.sp0.sends ∧
    (SP.handle_connection (fun _ => false) 2 "10.0.0.2"
        ⟨some "data", some "v2", some "command_station", some [], some "y1"⟩
        SP.sp0).acks = SP.sp0.acks + 1 :=
  c3_amended_bounded_retry.2 (fun _ => false) 2 "10.0.0.2" SP.sp0
    ⟨some "data", some "v2", some "command_station", some [], some "y1"⟩
    "y1" "command_station" "v2" (SP.COMMAND_STATION_IP, SP.COMMAND_STATION_PORT)
    (fun _ => rfl) rfl rfl rfl rfl rfl (by decide)

/-- Processing one popped item appends exactly its id to the pop order and
touches neither the priority queue nor the ACK counter. -/
theorem par_processItem_frame (now : ℚ) (st : Par.ParState) (msg : Envelope) :
    (Par.processItem now st msg).popped = st.popped ++ [msg.id] ∧
    (Par.processItem now st msg).pqueue = st.pqueue ∧
    (Par.processItem now st msg).acks = st.acks := by
  by_cases hdup : (Par.is_duplicate now st.recent msg.id).1 = true
  · simp [Par.processItem, hdup]
  · rcases h : alookup Par.ROUTING_TABLE msg.destination with _ | nh
    · simp [Par.processItem, hdup, h]
    · by_cases hnh : nh = "command_station"
      · simp [Par.processItem, hdup, h, hnh]
      · rcases h2 : findNbr Par.NEIGHBORS nh with _ | ⟨ip, p⟩
        · simp [Par.processItem, hdup, h, hnh, h2]
        · simp [Par.processItem, hdup, h, hnh, h2]

/-- `route_data` on an empty shared priority queue: the enqueued item is
popped and processed immediately, and the queue is empty again on exit. -/
theorem par_route_data_frame (now : ℚ) (st : Par.ParState) (msg : Envelope)
    (h : st.pqueue = []) :
    (Par.route_data now st msg).popped = st.popped ++ [msg.id] ∧
    (Par.route_data now st msg).pqueue = [] ∧
    (Par.route_data now st msg).acks = st.acks := by
  have hpf := par_processItem_frame now { st with pqueue := [] } msg
  simp only [Par.route_data, h, List.nil_append, drainPQ_single]
  refine ⟨?_, ?_, ?_⟩
  · simpa using hpf.1
  · simpa using hpf.2.1
  · simpa using hpf.2.2

/-- `handle_connection` pops exactly the ids of `data` envelopes, in
arrival order, leaving the priority queue empty. -/
theorem par_handle_order (now : ℚ) (addr : String) (msg : Envelope)
    (st : Par.ParState) (h : st.pqueue = []) :
    (Par.handle_connection now addr msg st).popped =
      st.popped ++ (if msg.type = "data" then [msg.id] else []) ∧
    (Par.handle_connection now addr msg st).pqueue = [] := by
  by_cases ht : msg.type = "data"
  · have hrd := par_route_data_frame now st msg h
    simp [Par.handle_connection, ht, hrd.1, hrd.2.1]
  · simp [Par.handle_connection, ht, h]

/-- Claim C5 counterexample: data items submitted with priorities
[3, 1, 2] are processed by a single worker in arrival order
`["a", "b", "c"]`, not in the claimed priority order `["b", "c", "a"]`. -/
theorem c5_counterexample :
    (Par.connection_worker
       [(0, "10.0.0.1", ⟨"data", "v1", "command_station", [], "a", some 3⟩),
        (0, "10.0.0.1", ⟨"data", "v1", "command_station", [], "b", some 1⟩),
        (0, "10.0.0.1", ⟨"data", "v1", "command_station", [], "c", some 2⟩)]
       Par.pst0).1.popped = ["a", "b", "c"] ∧
    (["a", "b", "c"] : List String) ≠ ["b", "c", "a"] :=
  ⟨by decide, by decide⟩

/-- Claim C5 amended: a single worker processes queued `data` items in
arrival (FIFO) order regardless of their priorities — each
`route_data` call enqueues its item (with default priority 1 when the
field is absent) and immediately drains the queue, which therefore never
holds more than one item under a single worker. -/
theorem c5_amended_arrival_order :
    ∀ (items : List (ℚ × String × Envelope)) (st : Par.ParState),
      st.pqueue = [] →
      (Par.connection_worker items st).1.popped =
        st.popped ++ Par.dataIds items ∧
      (Par.connection_worker items st).1.pqueue = [] := by
  intro items
  induction items with
  | nil => intro st h; simp [Par.connection_worker, Par.dataIds, h]
  | cons x rest ih =>
      intro st h
      obtain ⟨n, a, m⟩ := x
      have h1 := par_handle_order n a m st h
      have h2 := ih (Par.handle_connection n a m st) h1.2
      constructor
      · simp only [Par.connection_worker]
        rw [h2.1, h1.1, Par.dataIds]
        simp [List.append_assoc]
      · simp only [Par.connection_worker]
        exact h2.2

/-- Witness for the amended C5: a mixed queue (data, ack, data) is popped
in arrival order, the non-data item never reaching the dispatch queue. -/
theorem c5_witness :
    (Par.connection_worker
       [(0, "h1", ⟨"data", "v2", "command_station", [], "p", some 7⟩),
        (0, "h1", ⟨"ack", "v2", "command_station", [], "q", some 1⟩),
        (0, "h1", ⟨"data", "v2", "command_station", [], "r", none⟩)]
       Par.pst0).1.popped =
      Par.pst0.popped ++ Par.dataIds
       [(0, "h1", ⟨"data", "v2", "command_station", [], "p", some 7⟩),
        (0, "h1", ⟨"ack", "v2", "command_station", [], "q", some 1⟩),
        (0, "h1", ⟨"data", "v2", "command_station", [], "r", none⟩)] :=
  (c5_amended_arrival_order
     [(0, "h1", ⟨"data", "v2", "command_station", [], "p", some 7⟩),
      (0, "h1", ⟨"ack", "v2", "command_station", [], "q", some 1⟩),
      (0, "h1", ⟨"data", "v2", "command_station", [], "r", none⟩)]
     Par.pst0 rfl).1

/-- Claim C1 counterexample: in the parallel variant two `data` envelopes
with the same id submitted within the window result in TWO ACK envelopes
(one per submission) even though only one is forwarded —
`handle_connection` acknowledges unconditionally after `route_data`, so
the duplicate is not "terminated with no ACK". -/
theorem c1_counterexample :
    (Par.connection_worker
       [(0, "10.0.0.1", ⟨"data", "v1", "command_station", [], "m1", none⟩),
        (0, "10.0.0.1", ⟨"data", "v1", "command_station", [], "m1", none⟩)]
       Par.pst0).1.acks = 2 ∧
    (Par.connection_worker
       [(0, "10.0.0.1", ⟨"data", "v1", "command_station", [], "m1", none⟩),
        (0, "10.0.0.1", ⟨"data", "v1", "command_station", [], "m1", none⟩)]
       Par.pst0).1.cmdSends = ["m1"] ∧
    (2 : Nat) ≠ 1 := by
  have hwin : ((0 : ℚ) - 0 < 10) := by norm_num
  refine ⟨?_, ?_, by decide⟩ <;>
    simp [Par.connection_worker, Par.handle_connection, Par.route_data,
      Par.processItem, Par.is_duplicate, Par.pst0, drainPQ_single, alookup,
      Par.ROUTING_TABLE, aset, hwin]

/-- Claim C1 amended: for two `data` envelopes with the same id submitted
within the dedup window, the short-path variant forwards exactly one and
sends exactly one ACK (the duplicate gets neither); the parallel variant
also forwards exactly one, but sends an ACK for each submission — two
ACKs in total — because it acknowledges unconditionally after routing. -/
theorem c1_amended_dedup :
    (∀ (link : Nat → Bool) (now1 now2 : ℚ) (a1 a2 : String) (st : SP.SPState)
       (m1 m2 : RawMsg) (mid dest src : String) (ep : String × Nat),
       link 0 = true →
       m1.id = some mid → m1.type = some "data" → m1.destination = some dest →
       m1.source = some src → m2.id = some mid →
       alookup st.recent mid = none →
       now2 - now1 < 10 →
       SP.get_next_hop st.table dest = some ep →
       (SP.connection_worker link [(now1, a1, m1), (now2, a2, m2)] st).1.acks =
         st.acks + 1 ∧
       (SP.connection_worker link [(now1, a1, m1), (now2, a2, m2)] st).1.forwarded =
         st.forwarded + 1 ∧
       (SP.connection_worker link [(now1, a1, m1), (now2, a2, m2)] st).1.sends =
         st.sends ++ [ep] ∧
       (SP.connection_worker link [(now1, a1, m1), (now2, a2, m2)] st).1.duplicates =
         st.duplicates + 1) ∧
    (∀ (now1 now2 : ℚ) (a1 a2 : String) (st : Par.ParState) (e1 e2 : Envelope),
       st.pqueue = [] →
       e1.type = "data" → e2.type = "data" → e2.id = e1.id →
       e1.destination = "command_station" →
       alookup st.recent e1.id = none →
       now2 - now1 < 10 →
       (Par.connection_worker [(now1, a1, e1), (now2, a2, e2)] st).1.acks =
         st.acks + 2 ∧
       (Par.connection_worker [(now1, a1, e1), (now2, a2, e2)] st).1.cmdSends =
         st.cmdSends ++ [e1.id]) := by
  constructor
  · intro link now1 now2 a1 a2 st m1 m2 mid dest src ep hlink hid1 htype1
      hdest1 hsrc1 hid2 hfresh hwin hroute
    obtain ⟨ip, p⟩ := ep
    have hretry : SP.forward_to_neighbor_retry link =
        { attempts := 1, forwarded := 1, dropped := 0, sent := true,
          backoffs := [] } := by
      simp [SP.forward_to_neighbor_retry, SP.MAX_RETRIES, retryFrom, hlink]
    have H1 : SP.handle_connection link now1 a1 m1 st =
        { st with recent := aset st.recent mid now1,
                  received := st.received + 1,
                  forwarded := st.forwarded + 1,
                  acks := st.acks + 1,
                  attempts := st.attempts + 1,
                  sends := st.sends ++ [(ip, p)] } := by
      simp [SP.handle_connection, SP.handleBody, hid1, htype1, hdest1, hsrc1,
        SP.is_duplicate, hfresh, SP.forward_message, hroute,
        SP.forward_to_neighbor, hretry, SP.send_ack]
    have H2 : ∀ stA : SP.SPState, stA.recent = aset st.recent mid now1 →
        SP.handle_connection link now2 a2 m2 stA =
          { stA with duplicates := stA.duplicates + 1 } := by
      intro stA hrec
      simp [SP.handle_connection, SP.handleBody, hid2, SP.is_duplicate, hrec,
        alookup_aset_self, hwin]
    have hw : (SP.connection_worker link [(now1, a1, m1), (now2, a2, m2)] st).1 =
        SP.handle_connection link now2 a2 m2
          (SP.handle_connection link now1 a1 m1 st) := by
      simp [SP.connection_worker]
    rw [hw, H1, H2 _ rfl]
    exact ⟨rfl, rfl, rfl, rfl⟩
  · intro now1 now2 a1 a2 st e1 e2 hq ht1 ht2 hid hcs hfresh hwin
    have H1 : Par.handle_connection now1 a1 e1 st =
        { st with recent := aset st.recent e1.id now1,
                  pqueue := [],
                  popped := st.popped ++ [e1.id],
                  cmdSends := st.cmdSends ++ [e1.id],
                  acks := st.acks + 1 } := by
      simp [Par.handle_connection, ht1, Par.route_data, hq, drainPQ_single,
        Par.processItem, Par.is_duplicate, hfresh, hcs, alookup,
        Par.ROUTING_TABLE]
    have H2 : ∀ stA : Par.ParState, stA.recent = aset st.recent e1.id now1 →
        stA.pqueue = [] →
        Par.handle_connection now2 a2 e2 stA =
          { stA with popped := stA.popped ++ [e2.id],
                     acks := stA.acks + 1 } := by
      intro stA hrec hpq
      simp [Par.handle_connection, ht2, Par.route_data, hpq, drainPQ_single,
        Par.processItem, Par.is_duplicate, hrec, hid, alookup_aset_self, hwin]
    have hw : (Par.connection_worker [(now1, a1, e1), (now2, a2, e2)] st).1 =
        Par.handle_connection now2 a2 e2 (Par.handle_connection now1 a1 e1 st) := by
      simp [Par.connection_worker]
    rw [hw, H1, H2 _ rfl rfl]
    exact ⟨rfl, rfl⟩

/-- Witness for the amended C1: a concrete two-submission run on each
variant — one forward and one ACK on the short-path node, one forward and
two ACKs on the parallel node. -/
theorem c1_witness :
    ((SP.connection_worker (fun _ => true)
        [(0, "10.0.0.1", ⟨some "data", some "v1", some "satellite", some [], some "w9"⟩),
         (1, "10.0.0.1", ⟨some "data", some "v1", some "satellite", some [], some "w9"⟩)]
        SP.sp0).1.acks = SP.sp0.acks + 1 ∧
      (SP.connection_worker (fun _ => true)
        [(0, "10.0.0.1", ⟨some "data", some "v1", some "satellite", some [], some "w9"⟩),
         (1, "10.0.0.1", ⟨some "data", some "v1", some "satellite", some [], some "w9"⟩)]
        SP.sp0).1.forwarded = SP.sp0.forwarded + 1 ∧
      (SP.connection_worker (fun _ => true)
        [(0, "10.0.0.1", ⟨some "data", some "v1", some "satellite", some [], some "w9"⟩),
         (1, "10.0.0.1", ⟨some "data", some "v1", some "satellite", some [], some "w9"⟩)]
        SP.sp0).1.sends =
        SP.sp0.sends ++ [(SP.COMMAND_STATION_IP, SP.COMMAND_STATION_PORT)] ∧
      (SP.connection_worker (fun _ => true)
        [(0, "10.0.0.1", ⟨some "data", some "v1", some "satellite", some [], some "w9"⟩),
         (1, "10.0.0.1", ⟨some "data", some "v1", some "satellite", some [], some "w9"⟩)]
        SP.sp0).1.duplicates = SP.sp0.duplicates + 1) ∧
    ((Par.connection_worker
        [(0, "10.0.0.2", ⟨"data", "v2", "command_station", [], "w8", none⟩),
         (1, "10.0.0.2", ⟨"data", "v2", "command_station", [], "w8", none⟩)]
        Par.pst0).1.acks = Par.pst0.acks + 2 ∧
      (Par.connection_worker
        [(0, "10.0.0.2", ⟨"data", "v2", "command_station", [], "w8", none⟩),
         (1, "10.0.0.2", ⟨"data", "v2", "command_station", [], "w8", none⟩)]
        Par.pst0).1.cmdSends = Par.pst0.cmdSends ++ ["w8"]) :=
  ⟨c1_amended_dedup.1 (fun _ => true) 0 1 "10.0.0.1" "10.0.0.1" SP.sp0
      ⟨some "data", some "v1", some "satellite", some [], some "w9"⟩
      ⟨some "data", some "v1", some "satellite", some [], some "w9"⟩
      "w9" "satellite" "v1" (SP.COMMAND_STATION_IP, SP.COMMAND_STATION_PORT)
      rfl rfl rfl rfl rfl rfl rfl (by norm_num) (by decide),
   c1_amended_dedup.2 0 1 "10.0.0.2" "10.0.0.2" Par.pst0
      ⟨"data", "v2", "command_station", [], "w8", none⟩
      ⟨"data", "v2", "command_station", [], "w8", none⟩
      rfl rfl rfl rfl rfl rfl (by norm_num)⟩

end TrustLink
